import Mathlib

/-!
Shallow embedding of `src/skills/project-manager/scripts/linear_sync.py`,
a minimal Linear GraphQL API client: a `LinearClient` class whose methods
build a fixed query/mutation document, attach a variable mapping, POST once,
and extract a sub-field of the decoded JSON response; plus a CLI `main`.

Python JSON values are modelled by the inductive `JSON`; Python dicts are
ordered association lists (insertion order, as in CPython).  Exceptions are
modelled by `Except PyError`.  The `requests.post` transport is an oracle
`Transport : Nat → GraphQLRequest → HTTPResponse` indexed by attempt number;
the code performs exactly one attempt, so only index 0 is ever consulted.
`response.raise_for_status()` raises for status codes in [400, 600), per the
requests library; other codes pass.  `response.json()` is modelled by the
response carrying an already-decoded `JSON` body (no claim concerns a body
that fails to decode).
-/

/-- A decoded JSON value (also standing for the corresponding Python value:
`null`/`None`, booleans, numbers, strings, lists, dicts). -/
inductive JSON where
  | null
  | bool (b : Bool)
  | num (n : Int)
  | str (s : String)
  | arr (elems : List JSON)
  | obj (fields : List (String × JSON))
deriving Repr

/-- Python truthiness (`bool(x)`) of a JSON value: `None`, `False`, `0`, `""`,
`[]` and `\x7b\x7d` are falsy, everything else is truthy. -/
def JSON.truthy : JSON → Bool
  | .null => false
  | .bool b => b
  | .num n => n != 0
  | .str s => !s.isEmpty
  | .arr elems => !elems.isEmpty
  | .obj fields => !fields.isEmpty

/-- `d.get(k)`-style field access: `some v` when the value is an object with
key `k` (first occurrence), `none` otherwise. -/
def JSON.getField : JSON → String → Option JSON
  | .obj fields, k => fields.lookup k
  | _, _ => none

/-- The exception kinds the script can raise, distinguished by provenance:
`transportError` is `requests.HTTPError` from `raise_for_status`;
`remoteAPIError` is the `Exception` raised on a body carrying `errors`
(holding that errors value verbatim); `operationFailed` is the `Exception`
raised on `success=false`; `lookupError` is a generic `KeyError`/`TypeError`
from subscripting or iterating an unexpected shape. -/
inductive PyError where
  | transportError (status : Nat)
  | remoteAPIError (errors : JSON)
  | operationFailed (msg : String)
  | lookupError (key : String)
deriving Repr

/-- `d[k]` access: the value, or a `lookupError` as Python raises
`KeyError`/`TypeError`. -/
def JSON.getFieldE (j : JSON) (k : String) : Except PyError JSON :=
  match j.getField k with
  | some v => Except.ok v
  | none => Except.error (PyError.lookupError k)

/-- Iterating a value as a list (`for x in v`): the elements, or a
`lookupError` when the value is not a list. -/
def JSON.asArr : JSON → Except PyError (List JSON)
  | .arr elems => Except.ok elems
  | _ => Except.error (PyError.lookupError "iter")

/-- One HTTP exchange as seen by the caller of `requests.post`: the final
status code and the decoded JSON body. -/
structure HTTPResponse where
  status : Nat
  body : JSON

/-- The outgoing POST request: URL, headers, and the JSON payload
`\x7b"query": ..., "vars": ...\x7d`. -/
structure GraphQLRequest where
  url : String
  headers : List (String × String)
  query : String
  vars : List (String × JSON)

/-- The network oracle: given the attempt number (the script never retries,
so only attempt 0 is consulted) and the request, the response. -/
abbrev Transport := Nat → GraphQLRequest → HTTPResponse

/-- The `LinearClient` object state set up by `__init__`. -/
structure LinearClient where
  api_key : String
  endpoint : String
  headers : List (String × String)

/-- `LinearClient(api_key)`: stores the key verbatim in the Authorization
header next to a fixed content type, and the fixed endpoint. -/
def LinearClient.init (api_key : String) : LinearClient :=
  { api_key := api_key
    endpoint := "https://api.linear.app/graphql"
    headers := [("Authorization", api_key), ("Content-Type", "application/json")] }

/-- The request `LinearClient.query` sends: endpoint, headers, and body
`\x7b"query": query, "vars": vars or \x7b\x7d\x7d`. -/
def LinearClient.mkRequest (c : LinearClient) (q : String)
    (vars : Option (List (String × JSON))) : GraphQLRequest :=
  { url := c.endpoint, headers := c.headers, query := q
    vars := vars.getD [] }

/-- `LinearClient.query`: one POST, `raise_for_status` (4xx/5xx raise), then
raise on an `errors` key in the body, else return `data.get("data")`
(`JSON.null` both when the field is absent and when it is JSON null, exactly
as Python's `None`). -/
def LinearClient.query (c : LinearClient) (t : Transport) (q : String)
    (vars : Option (List (String × JSON))) : Except PyError JSON :=
  let resp := t 0 (c.mkRequest q vars)
  if 400 ≤ resp.status ∧ resp.status < 600 then
    Except.error (PyError.transportError resp.status)
  else
    match resp.body.getField "errors" with
    | some errs => Except.error (PyError.remoteAPIError errs)
    | none => Except.ok ((resp.body.getField "data").getD JSON.null)

/-- The literal document of `get_teams` (braces written as \x7b/\x7d). -/
def teamsQuery : String :=
  "query \x7b teams \x7b nodes \x7b id name key \x7d \x7d \x7d"

/-- `LinearClient.get_teams`: returns `data["teams"]["nodes"]`. -/
def LinearClient.get_teams (c : LinearClient) (t : Transport) :
    Except PyError JSON := do
  let data ← c.query t teamsQuery none
  let teams ← data.getFieldE "teams"
  teams.getFieldE "nodes"

/-- The literal document of `get_projects`. -/
def getProjectsQuery : String :=
  "query GetProjects($teamId: String!) \x7b team(id: $teamId) \x7b projects \x7b nodes \x7b id name description state \x7d \x7d \x7d \x7d"

/-- `LinearClient.get_projects`: returns `data["team"]["projects"]["nodes"]`. -/
def LinearClient.get_projects (c : LinearClient) (t : Transport)
    (team_id : String) : Except PyError JSON := do
  let data ← c.query t getProjectsQuery (some [("teamId", JSON.str team_id)])
  let team ← data.getFieldE "team"
  let projects ← team.getFieldE "projects"
  projects.getFieldE "nodes"

/-- The literal document of `get_workflow_states`. -/
def getStatesQuery : String :=
  "query GetStates($teamId: String!) \x7b team(id: $teamId) \x7b states \x7b nodes \x7b id name type color \x7d \x7d \x7d \x7d"

/-- `LinearClient.get_workflow_states`: returns `data["team"]["states"]["nodes"]`. -/
def LinearClient.get_workflow_states (c : LinearClient) (t : Transport)
    (team_id : String) : Except PyError JSON := do
  let data ← c.query t getStatesQuery (some [("teamId", JSON.str team_id)])
  let team ← data.getFieldE "team"
  let states ← team.getFieldE "states"
  states.getFieldE "nodes"

/-- Conditional insertion `if x: vars[key] = x` on an optional string input:
Python truthiness, so `None` and the empty string are both skipped. -/
def addIfTruthy (vs : List (String × JSON)) (key : String)
    (x : Option String) : List (String × JSON) :=
  match x with
  | some s => if !s.isEmpty then vs ++ [(key, JSON.str s)] else vs
  | none => vs

/-- The literal document of `create_issue`. -/
def createIssueMutation : String :=
  "mutation CreateIssue($teamId: String! $title: String! $description: String $priority: Int $projectId: String $stateId: String $labelIds: [String!]) \x7b issueCreate(input: \x7b teamId: $teamId title: $title description: $description priority: $priority projectId: $projectId stateId: $stateId labelIds: $labelIds \x7d) \x7b success issue \x7b id identifier title description priority url state \x7b name \x7d \x7d \x7d \x7d"

/-- The variable mapping built by `create_issue`: `teamId`, `title`,
`description` and `priority` unconditionally (the latter two carry their
defaults `""` and `0` when the caller omits them), then `projectId` and
`stateId` only when truthy.  `labelIds` is never inserted. -/
def createIssueVars (team_id title description : String) (priority : Int)
    (project_id state_id : Option String) : List (String × JSON) :=
  let vs := [("teamId", JSON.str team_id), ("title", JSON.str title),
             ("description", JSON.str description),
             ("priority", JSON.num priority)]
  let vs := addIfTruthy vs "projectId" project_id
  addIfTruthy vs "stateId" state_id

/-- `LinearClient.create_issue`: builds `labels_input` from the label names
(dead code in the source — never referenced afterwards), builds the variable
mapping, runs the mutation, raises `operationFailed` unless
`data["issueCreate"]["success"]` is truthy, else returns
`data["issueCreate"]["issue"]`. -/
def LinearClient.create_issue (c : LinearClient) (t : Transport)
    (team_id title description : String) (priority : Int)
    (project_id state_id : Option String) (labels : Option (List String)) :
    Except PyError JSON :=
  let _labels_input : List JSON :=
    match labels with
    | some names =>
        if !names.isEmpty then names.map (fun n => JSON.obj [("name", JSON.str n)])
        else []
    | none => []
  match c.query t createIssueMutation
      (some (createIssueVars team_id title description priority
        project_id state_id)) with
  | Except.error e => Except.error e
  | Except.ok data => do
      let ic ← data.getFieldE "issueCreate"
      let success ← ic.getFieldE "success"
      if !success.truthy then
        Except.error (PyError.operationFailed "Failed to create issue")
      else
        ic.getFieldE "issue"

/-- The literal document of `update_issue`. -/
def updateIssueMutation : String :=
  "mutation UpdateIssue($issueId: String! $stateId: String $title: String $description: String) \x7b issueUpdate(id: $issueId input: \x7b stateId: $stateId title: $title description: $description \x7d) \x7b success issue \x7b id identifier title state \x7b name \x7d url \x7d \x7d \x7d"

/-- The variable mapping built by `update_issue`: `issueId` always, then
`stateId`, `title`, `description` only when truthy. -/
def updateIssueVars (issue_id : String)
    (state_id title description : Option String) : List (String × JSON) :=
  let vs := [("issueId", JSON.str issue_id)]
  let vs := addIfTruthy vs "stateId" state_id
  let vs := addIfTruthy vs "title" title
  addIfTruthy vs "description" description

/-- `LinearClient.update_issue`: runs the mutation, raises `operationFailed`
unless `data["issueUpdate"]["success"]` is truthy, else returns
`data["issueUpdate"]["issue"]`. -/
def LinearClient.update_issue (c : LinearClient) (t : Transport)
    (issue_id : String) (state_id title description : Option String) :
    Except PyError JSON :=
  match c.query t updateIssueMutation
      (some (updateIssueVars issue_id state_id title description)) with
  | Except.error e => Except.error e
  | Except.ok data => do
      let iu ← data.getFieldE "issueUpdate"
      let success ← iu.getFieldE "success"
      if !success.truthy then
        Except.error (PyError.operationFailed "Failed to update issue")
      else
        iu.getFieldE "issue"

/-- The literal document of `get_issue`. -/
def getIssueQuery : String :=
  "query GetIssue($identifier: String!) \x7b issue(identifier: $identifier) \x7b id identifier title description priority state \x7b id name \x7d url labels \x7b nodes \x7b name \x7d \x7d \x7d \x7d"

/-- `LinearClient.get_issue`: returns `data["issue"]`. -/
def LinearClient.get_issue (c : LinearClient) (t : Transport)
    (identifier : String) : Except PyError JSON := do
  let data ← c.query t getIssueQuery (some [("identifier", JSON.str identifier)])
  data.getFieldE "issue"

/-- The literal document of `search_issues`. -/
def searchIssuesQuery : String :=
  "query SearchIssues($teamId: String!, $query: String!) \x7b team(id: $teamId) \x7b issues(filter: \x7bquery: $query\x7d) \x7b nodes \x7b id identifier title state \x7b name \x7d priority url \x7d \x7d \x7d \x7d"

/-- `LinearClient.search_issues`: returns `data["team"]["issues"]["nodes"]`. -/
def LinearClient.search_issues (c : LinearClient) (t : Transport)
    (team_id q : String) : Except PyError JSON := do
  let data ← c.query t searchIssuesQuery
    (some [("teamId", JSON.str team_id), ("query", JSON.str q)])
  let team ← data.getFieldE "team"
  let issues ← team.getFieldE "issues"
  issues.getFieldE "nodes"

mutual

/-- Python `repr` of a JSON/Python value, as produced inside an f-string for
non-string values (`None`, `True`, numbers, lists, dicts; apostrophes around
strings written \x27). -/
def JSON.pyRepr : JSON → String
  | .null => "None"
  | .bool b => if b then "True" else "False"
  | .num n => toString n
  | .str s => "\x27" ++ s ++ "\x27"
  | .arr elems => "[" ++ String.intercalate ", " (pyReprList elems) ++ "]"
  | .obj fields => "\x7b" ++ String.intercalate ", " (pyReprFields fields) ++ "\x7d"

/-- `repr` of each element of a list. -/
def pyReprList : List JSON → List String
  | [] => []
  | x :: xs => x.pyRepr :: pyReprList xs

/-- `repr` of each `key: value` entry of a dict. -/
def pyReprFields : List (String × JSON) → List String
  | [] => []
  | (k, v) :: fs => ("\x27" ++ k ++ "\x27: " ++ v.pyRepr) :: pyReprFields fs

end

/-- Python `str` of a value, as interpolated by an f-string: the string
itself for strings, `repr`-style text otherwise. -/
def JSON.pyStr : JSON → String
  | .str s => s
  | j => j.pyRepr

/-- The f-string of the `teams` loop:
`"  "` name `" ("` id `") - Key: "` key, with the three subscripts evaluated
left to right. -/
def fmtTeamLine (team : JSON) : Except PyError String := do
  let name ← team.getFieldE "name"
  let id ← team.getFieldE "id"
  let key ← team.getFieldE "key"
  Except.ok ("  " ++ name.pyStr ++ " (" ++ id.pyStr ++ ") - Key: " ++ key.pyStr)

/-- The f-string of the `projects` loop: `"  "` name `" ("` id `")"`. -/
def fmtProjectLine (project : JSON) : Except PyError String := do
  let name ← project.getFieldE "name"
  let id ← project.getFieldE "id"
  Except.ok ("  " ++ name.pyStr ++ " (" ++ id.pyStr ++ ")")

/-- A `for x in xs: print(fmt(x))` loop: the lines printed before any
failure, and the first exception if one occurs. -/
def printLoop (fmt : JSON → Except PyError String) :
    List JSON → List String × Option PyError
  | [] => ([], none)
  | x :: xs =>
    match fmt x with
    | Except.error e => ([], some e)
    | Except.ok line =>
      let (rest, err) := printLoop fmt xs
      (line :: rest, err)

/-- How the process ends: `sys.exit(code)` / normal return (code 0), or an
uncaught exception (CPython then exits with status 1 after a traceback). -/
inductive ProcExit where
  | exited (code : Nat)
  | uncaught (e : PyError)

/-- Observable outcome of `main`: the lines printed to stdout in order, how
the process ended, whether a `LinearClient` object was constructed, and how
many network calls (invocations of `requests.post`) were made. -/
structure MainResult where
  output : List String
  exit : ProcExit
  clientConstructed : Bool
  networkCalls : Nat

/-- The usage block printed when no command is given. -/
def usageLines : List String :=
  ["Usage: python linear_sync.py <command> [args]",
   "Commands:",
   "  teams - List all teams",
   "  projects <team_id> - List projects",
   "  create <team_id> <title> - Create issue"]

/-- The message printed when `LINEAR_API_KEY` is unset or empty. -/
def envErrorLine : String :=
  "Error: LINEAR_API_KEY environment variable not set"

/-- The usage line of `projects` with too few arguments. -/
def projectsUsageLine : String :=
  "Usage: python linear_sync.py projects <team_id>"

/-- The usage line of `create` with too few arguments. -/
def createUsageLine : String :=
  "Usage: python linear_sync.py create <team_id> <title>"

/-- Truthiness of `os.environ.get("LINEAR_API_KEY")`: `None` (unset) and the
empty string are both falsy, as tested by `if not api_key`. -/
def envTruthy : Option String → Bool
  | none => false
  | some s => !s.isEmpty

namespace LinearSync

/-- `main(argv, env)`: `argv` is the full `sys.argv` (program name first),
`env` the value of `LINEAR_API_KEY`.  Dispatches `teams` / `projects` /
`create`, mirroring the source's ordering of checks and prints. -/
def main (argv : List String) (env : Option String) (t : Transport) :
    MainResult :=
  if argv.length < 2 then
    { output := usageLines, exit := ProcExit.exited 1
      clientConstructed := false, networkCalls := 0 }
  else if !envTruthy env then
    { output := [envErrorLine], exit := ProcExit.exited 1
      clientConstructed := false, networkCalls := 0 }
  else
    let client := LinearClient.init (env.getD "")
    let command := argv.getD 1 ""
    if command = "teams" then
      match client.get_teams t with
      | Except.error e =>
          { output := [], exit := ProcExit.uncaught e
            clientConstructed := true, networkCalls := 1 }
      | Except.ok teams =>
          match teams.asArr with
          | Except.error e =>
              { output := ["Teams:"], exit := ProcExit.uncaught e
                clientConstructed := true, networkCalls := 1 }
          | Except.ok teamList =>
              let (lines, err) := printLoop fmtTeamLine teamList
              match err with
              | some e =>
                  { output := "Teams:" :: lines, exit := ProcExit.uncaught e
                    clientConstructed := true, networkCalls := 1 }
              | none =>
                  { output := "Teams:" :: lines, exit := ProcExit.exited 0
                    clientConstructed := true, networkCalls := 1 }
    else if command = "projects" then
      if argv.length < 3 then
        { output := [projectsUsageLine], exit := ProcExit.exited 1
          clientConstructed := true, networkCalls := 0 }
      else
        match client.get_projects t (argv.getD 2 "") with
        | Except.error e =>
            { output := [], exit := ProcExit.uncaught e
              clientConstructed := true, networkCalls := 1 }
        | Except.ok projects =>
            match projects.asArr with
            | Except.error e =>
                { output := ["Projects:"], exit := ProcExit.uncaught e
                  clientConstructed := true, networkCalls := 1 }
            | Except.ok projectList =>
                let (lines, err) := printLoop fmtProjectLine projectList
                match err with
                | some e =>
                    { output := "Projects:" :: lines
                      exit := ProcExit.uncaught e
                      clientConstructed := true, networkCalls := 1 }
                | none =>
                    { output := "Projects:" :: lines
                      exit := ProcExit.exited 0
                      clientConstructed := true, networkCalls := 1 }
    else if command = "create" then
      if argv.length < 4 then
        { output := [createUsageLine], exit := ProcExit.exited 1
          clientConstructed := true, networkCalls := 0 }
      else
        match client.create_issue t (argv.getD 2 "") (argv.getD 3 "")
            "Created via API" 0 none none none with
        | Except.error e =>
            { output := [], exit := ProcExit.uncaught e
              clientConstructed := true, networkCalls := 1 }
        | Except.ok issue =>
            match issue.getFieldE "identifier" with
            | Except.error e =>
                { output := [], exit := ProcExit.uncaught e
                  clientConstructed := true, networkCalls := 1 }
            | Except.ok idf =>
                match issue.getFieldE "url" with
                | Except.error e =>
                    { output := ["Created issue: " ++ idf.pyStr]
                      exit := ProcExit.uncaught e
                      clientConstructed := true, networkCalls := 1 }
                | Except.ok url =>
                    { output := ["Created issue: " ++ idf.pyStr,
                                 "URL: " ++ url.pyStr]
                      exit := ProcExit.exited 0
                      clientConstructed := true, networkCalls := 1 }
    else
      { output := ["Unknown command: " ++ command]
        exit := ProcExit.exited 1
        clientConstructed := true, networkCalls := 0 }

end LinearSync

/-- An `argv` that reaches one of the three operations: a command word is
present, it is `teams`, or `projects` with a team id, or `create` with a
team id and a title. -/
def validInvocation (argv : List String) : Bool :=
  2 ≤ argv.length &&
    (argv.getD 1 "" == "teams"
      || (argv.getD 1 "" == "projects" && 3 ≤ argv.length)
      || (argv.getD 1 "" == "create" && 4 ≤ argv.length))

lemma lookup_append_single (k key : String) (v : JSON)
    (vs : List (String × JSON)) (hk : k ≠ key) :
    List.lookup k (vs ++ [(key, v)]) = List.lookup k vs := by
  induction vs with
  | nil => simp [List.lookup, beq_eq_false_iff_ne.mpr hk]
  | cons a rest ih =>
    obtain ⟨a1, a2⟩ := a
    by_cases ha : k = a1
    · simp [List.lookup, ha]
    · simp [List.lookup, beq_eq_false_iff_ne.mpr ha, ih]

lemma lookup_addIfTruthy (vs : List (String × JSON)) (key k : String)
    (x : Option String) (hk : k ≠ key) :
    List.lookup k (addIfTruthy vs key x) = List.lookup k vs := by
  cases x with
  | none => rfl
  | some s =>
    unfold addIfTruthy
    by_cases h : s.isEmpty <;> simp [h, lookup_append_single _ _ _ _ hk]

/-- Claim C10: optional-field omission is decided by Python truthiness, not
by presence of the caller's input: for `update_issue`, supplying the empty
string for the state id, title, or description yields the same outgoing
variable mapping as supplying nothing at all, and likewise for the project
id and state id of `create_issue`. -/
theorem empty_string_optionals_omitted
    (issue_id team title description : String) (priority : Int)
    (sid ttl dsc pid : Option String) :
    updateIssueVars issue_id (some "") ttl dsc
      = updateIssueVars issue_id none ttl dsc
    ∧ updateIssueVars issue_id sid (some "") dsc
      = updateIssueVars issue_id sid none dsc
    ∧ updateIssueVars issue_id sid ttl (some "")
      = updateIssueVars issue_id sid ttl none
    ∧ createIssueVars team title description priority (some "") sid
      = createIssueVars team title description priority none sid
    ∧ createIssueVars team title description priority pid (some "")
      = createIssueVars team title description priority pid none :=
  ⟨rfl, rfl, rfl, rfl, rfl⟩

/-- Claim C1, counterexample: with only the required inputs (team id and
title; the other parameters at their Python defaults), the `create_issue`
variable mapping is not `teamId`/`title` alone — the optional `description`
key is present, bound to the default empty string. -/
theorem create_required_only_not_two_keys :
    (createIssueVars "T1" "Fix bug" "" 0 none none).map Prod.fst
      ≠ ["teamId", "title"]
    ∧ List.lookup "description" (createIssueVars "T1" "Fix bug" "" 0 none none)
      = some (JSON.str "") :=
  ⟨by decide, rfl⟩

/-- Claim C1 as amended: with only the required inputs, `create_issue` sends
exactly `teamId`, `title`, `description` and `priority` (the latter two with
their defaults `""` and `0`), omitting `projectId`, `stateId` and `labelIds`;
`update_issue` with only the issue id sends exactly `issueId`; and in both
mappings no variable is ever an explicit null. -/
theorem required_only_variable_keys (team title issue_id : String) :
    (createIssueVars team title "" 0 none none).map Prod.fst
      = ["teamId", "title", "description", "priority"]
    ∧ (∀ p ∈ createIssueVars team title "" 0 none none, p.2 ≠ JSON.null)
    ∧ (updateIssueVars issue_id none none none).map Prod.fst = ["issueId"]
    ∧ (∀ p ∈ updateIssueVars issue_id none none none, p.2 ≠ JSON.null) := by
  refine ⟨rfl, ?_, rfl, ?_⟩
  · intro p hp
    simp [createIssueVars, addIfTruthy] at hp
    rcases hp with h | h | h | h <;> subst h <;> simp
  · intro p hp
    simp [updateIssueVars, addIfTruthy] at hp
    subst hp
    simp

/-- Claim C3: `create_issue` never transmits a `labelIds` variable — the
mapping it sends has no such key for any combination of inputs — and the
supplied label names are a no-op: two calls differing only in `labels`
produce the same result for every transport. -/
theorem create_issue_never_sends_labelIds (c : LinearClient) (t : Transport)
    (team title description : String) (priority : Int)
    (project_id state_id : Option String)
    (labels labels2 : Option (List String)) :
    List.lookup "labelIds"
      (createIssueVars team title description priority project_id state_id)
      = none
    ∧ c.create_issue t team title description priority project_id state_id
        labels
      = c.create_issue t team title description priority project_id state_id
        labels2 := by
  constructor
  · unfold createIssueVars
    rw [lookup_addIfTruthy _ _ _ _ (by decide),
      lookup_addIfTruthy _ _ _ _ (by decide)]
    rfl
  · rfl

/-- Claim C2: whenever the decoded body of the (successfully received)
response carries a non-empty `errors` list, `query` raises `remoteAPIError`
holding that list verbatim — even if a `data` field is also present — and
whenever the body has no `errors` key, `query` never raises
`remoteAPIError`. -/
theorem query_raises_on_errors (c : LinearClient) (t : Transport)
    (q : String) (vars : Option (List (String × JSON))) :
    (∀ errs : List JSON, errs ≠ [] →
      (t 0 (c.mkRequest q vars)).status < 400 →
      (t 0 (c.mkRequest q vars)).body.getField "errors"
        = some (JSON.arr errs) →
      c.query t q vars = Except.error (PyError.remoteAPIError (JSON.arr errs)))
    ∧ ((t 0 (c.mkRequest q vars)).body.getField "errors" = none →
      ∀ errs, c.query t q vars ≠ Except.error (PyError.remoteAPIError errs)) := by
  constructor
  · intro errs _ hstatus herrs
    unfold LinearClient.query
    rw [if_neg (by omega), herrs]
  · intro herrs errs
    show (if 400 ≤ (t 0 (c.mkRequest q vars)).status
          ∧ (t 0 (c.mkRequest q vars)).status < 600 then
        Except.error (PyError.transportError (t 0 (c.mkRequest q vars)).status)
      else
        match (t 0 (c.mkRequest q vars)).body.getField "errors" with
        | some errs2 => Except.error (PyError.remoteAPIError errs2)
        | none =>
            Except.ok
              (((t 0 (c.mkRequest q vars)).body.getField "data").getD
                JSON.null))
      ≠ Except.error (PyError.remoteAPIError errs)
    rw [herrs]
    split
    · simp
    · simp

/-- The stub transport for the C2 witness: status 200 and a body carrying
both a `data` field and a non-empty `errors` list. -/
def errsTransport : Transport := fun _ _ =>
  { status := 200
    body := JSON.obj [("data", JSON.obj []),
                      ("errors", JSON.arr [JSON.str "boom"])] }

/-- Witness for C2 at a concrete stub response. -/
theorem query_raises_on_errors_witness :
    (LinearClient.init "k").query errsTransport "q" none
      = Except.error (PyError.remoteAPIError (JSON.arr [JSON.str "boom"])) :=
  (query_raises_on_errors (LinearClient.init "k") errsTransport "q" none).1
    [JSON.str "boom"] (by simp) (by decide) rfl

/-- Claim C9: when the HTTP status is a success and the body has no `errors`
key, `query` returns the body's `data` field; in particular, when the `data`
field is absent it returns the null value rather than failing. -/
theorem query_returns_data_on_success (c : LinearClient) (t : Transport)
    (q : String) (vars : Option (List (String × JSON)))
    (hstatus : (t 0 (c.mkRequest q vars)).status < 400)
    (herrs : (t 0 (c.mkRequest q vars)).body.getField "errors" = none) :
    c.query t q vars
      = Except.ok
          (((t 0 (c.mkRequest q vars)).body.getField "data").getD JSON.null)
    ∧ ((t 0 (c.mkRequest q vars)).body.getField "data" = none →
        c.query t q vars = Except.ok JSON.null) := by
  have hq : c.query t q vars
      = Except.ok
          (((t 0 (c.mkRequest q vars)).body.getField "data").getD JSON.null) := by
    unfold LinearClient.query
    rw [if_neg (by omega), herrs]
  exact ⟨hq, fun hdata => by rw [hq, hdata]; rfl⟩

/-- The stub transport for the C9 witness: status 200 and a body with
neither `errors` nor `data`. -/
def emptyBodyTransport : Transport := fun _ _ =>
  { status := 200, body := JSON.obj [] }

/-- Witness for C9 at a concrete stub response with no `data` field. -/
theorem query_returns_data_on_success_witness :
    (LinearClient.init "k").query emptyBodyTransport "q" none
      = Except.ok JSON.null :=
  (query_returns_data_on_success (LinearClient.init "k") emptyBodyTransport
    "q" none (by decide) rfl).2 rfl

/-- The stub transport for the C5 counterexample: a 304 (not modified)
final status — a non-2xx code that `raise_for_status` does not flag — with
a well-formed body. -/
def redirectTransport : Transport := fun _ _ =>
  { status := 304, body := JSON.obj [("data", JSON.str "x")] }

/-- Claim C5, counterexample: a non-2xx status does not always raise — on a
304 response `query` raises nothing and returns the parsed `data` field,
because `raise_for_status` only flags 4xx/5xx. -/
theorem non2xx_without_transport_error :
    (redirectTransport 0
        ((LinearClient.init "k").mkRequest "q" none)).status = 304
    ∧ (LinearClient.init "k").query redirectTransport "q" none
        = Except.ok (JSON.str "x")
    ∧ ∀ e, (LinearClient.init "k").query redirectTransport "q" none
        ≠ Except.error e := by
  refine ⟨rfl, rfl, ?_⟩
  intro e
  rw [show (LinearClient.init "k").query redirectTransport "q" none
    = Except.ok (JSON.str "x") from rfl]
  simp

/-- Claim C5 as amended: when the HTTP layer reports an error status in the
4xx/5xx range (the codes `raise_for_status` flags; 2xx and 3xx pass), every
operation raises `transportError` with that status and returns nothing
parsed; and every operation makes exactly one attempt — the outcome of
`query` depends only on the attempt-0 response. -/
theorem transport_error_on_4xx5xx (c : LinearClient) (t : Transport)
    (resp : HTTPResponse) (hresp : ∀ r, t 0 r = resp)
    (hstatus : 400 ≤ resp.status ∧ resp.status < 600) :
    (∀ q vars, c.query t q vars
      = Except.error (PyError.transportError resp.status))
    ∧ c.get_teams t = Except.error (PyError.transportError resp.status)
    ∧ (∀ team_id, c.get_projects t team_id
        = Except.error (PyError.transportError resp.status))
    ∧ (∀ team_id, c.get_workflow_states t team_id
        = Except.error (PyError.transportError resp.status))
    ∧ (∀ team title description priority project_id state_id labels,
        c.create_issue t team title description priority project_id state_id
          labels
        = Except.error (PyError.transportError resp.status))
    ∧ (∀ issue_id state_id title description,
        c.update_issue t issue_id state_id title description
        = Except.error (PyError.transportError resp.status))
    ∧ (∀ identifier, c.get_issue t identifier
        = Except.error (PyError.transportError resp.status))
    ∧ (∀ team_id qq, c.search_issues t team_id qq
        = Except.error (PyError.transportError resp.status))
    ∧ (∀ t1 t2 : Transport, (∀ r, t1 0 r = t2 0 r) →
        ∀ q vars, c.query t1 q vars = c.query t2 q vars) := by
  have hq : ∀ q vars, c.query t q vars
      = Except.error (PyError.transportError resp.status) := by
    intro q vars
    unfold LinearClient.query
    rw [hresp, if_pos hstatus]
  refine ⟨hq, ?_, ?_, ?_, ?_, ?_, ?_, ?_, ?_⟩
  · unfold LinearClient.get_teams; rw [hq]; rfl
  · intro team_id; unfold LinearClient.get_projects; rw [hq]; rfl
  · intro team_id; unfold LinearClient.get_workflow_states; rw [hq]; rfl
  · intro team title description priority project_id state_id labels
    unfold LinearClient.create_issue; rw [hq]
  · intro issue_id state_id title description
    unfold LinearClient.update_issue; rw [hq]
  · intro identifier; unfold LinearClient.get_issue; rw [hq]; rfl
  · intro team_id qq; unfold LinearClient.search_issues; rw [hq]; rfl
  · intro t1 t2 h q vars
    unfold LinearClient.query
    rw [h]

/-- The stub transport for the C5 witness: a constant 500 response. -/
def serverErrorTransport : Transport := fun _ _ =>
  { status := 500, body := JSON.null }

/-- Witness for the amended C5 at a concrete 500 response. -/
theorem transport_error_on_4xx5xx_witness :
    (LinearClient.init "k").get_teams serverErrorTransport
      = Except.error (PyError.transportError 500) :=
  (transport_error_on_4xx5xx (LinearClient.init "k") serverErrorTransport
    { status := 500, body := JSON.null } (fun _ => rfl) (by decide)).2.1

/-- Claim C4: when the mutation's HTTP round-trip completes (success status,
no `errors`) but the payload reports `success: false`, `create_issue` and
`update_issue` raise `operationFailed` — no issue object is returned. -/
theorem mutation_success_false_raises (c : LinearClient) (t : Transport)
    (team title description : String) (priority : Int)
    (project_id state_id : Option String) (labels : Option (List String))
    (issue_id : String) (ustate utitle udesc : Option String) :
    (∀ ic,
      (t 0 (c.mkRequest createIssueMutation
        (some (createIssueVars team title description priority project_id
          state_id)))).status < 400 →
      (t 0 (c.mkRequest createIssueMutation
        (some (createIssueVars team title description priority project_id
          state_id)))).body.getField "errors" = none →
      (((t 0 (c.mkRequest createIssueMutation
        (some (createIssueVars team title description priority project_id
          state_id)))).body.getField "data").getD JSON.null).getField
            "issueCreate" = some ic →
      ic.getField "success" = some (JSON.bool false) →
      c.create_issue t team title description priority project_id state_id
          labels
        = Except.error (PyError.operationFailed "Failed to create issue"))
    ∧ (∀ iu,
      (t 0 (c.mkRequest updateIssueMutation
        (some (updateIssueVars issue_id ustate utitle udesc)))).status
          < 400 →
      (t 0 (c.mkRequest updateIssueMutation
        (some (updateIssueVars issue_id ustate utitle udesc)))).body.getField
          "errors" = none →
      (((t 0 (c.mkRequest updateIssueMutation
        (some (updateIssueVars issue_id ustate utitle udesc)))).body.getField
          "data").getD JSON.null).getField "issueUpdate" = some iu →
      iu.getField "success" = some (JSON.bool false) →
      c.update_issue t issue_id ustate utitle udesc
        = Except.error (PyError.operationFailed "Failed to update issue")) := by
  constructor
  · intro ic hstatus herrs hic hsuccess
    have hq := (query_returns_data_on_success c t createIssueMutation
      (some (createIssueVars team title description priority project_id
        state_id)) hstatus herrs).1
    unfold LinearClient.create_issue
    rw [hq]
    simp [JSON.getFieldE, hic, hsuccess, JSON.truthy, Bind.bind, Except.bind]
  · intro iu hstatus herrs hiu hsuccess
    have hq := (query_returns_data_on_success c t updateIssueMutation
      (some (updateIssueVars issue_id ustate utitle udesc)) hstatus herrs).1
    unfold LinearClient.update_issue
    rw [hq]
    simp [JSON.getFieldE, hiu, hsuccess, JSON.truthy, Bind.bind, Except.bind]

/-- The stub transport for the C4 witness: a success status whose payload
reports `success: false` for both mutations. -/
def successFalseTransport : Transport := fun _ _ =>
  { status := 200
    body := JSON.obj [("data", JSON.obj
      [("issueCreate", JSON.obj [("success", JSON.bool false)]),
       ("issueUpdate", JSON.obj [("success", JSON.bool false)])])] }

/-- Witness for C4 at a concrete `success: false` payload. -/
theorem mutation_success_false_raises_witness :
    (LinearClient.init "k").create_issue successFalseTransport "T1" "Fix bug"
        "" 0 none none none
      = Except.error (PyError.operationFailed "Failed to create issue") :=
  (mutation_success_false_raises (LinearClient.init "k") successFalseTransport
    "T1" "Fix bug" "" 0 none none none "ISS-1" none none none).1
    (JSON.obj [("success", JSON.bool false)]) (by decide) rfl rfl rfl

/-- The issue sub-object echoed by the C6 stub transport. -/
def stubIssue : JSON :=
  JSON.obj [("id", JSON.str "issue-uuid-1"),
            ("identifier", JSON.str "T1-1"),
            ("title", JSON.str "Fix bug"),
            ("description", JSON.str ""),
            ("priority", JSON.num 0),
            ("url", JSON.str "https://linear.app/team/issue/T1-1"),
            ("state", JSON.obj [("name", JSON.str "Todo")])]

/-- The C6 stub transport: a well-formed `issueCreate` success payload. -/
def stubCreateTransport : Transport := fun _ _ =>
  { status := 200
    body := JSON.obj [("data", JSON.obj
      [("issueCreate", JSON.obj
        [("success", JSON.bool true), ("issue", stubIssue)])])] }

/-- Claim C6: against a stub transport echoing a well-formed `issueCreate`
success payload for team "T1" and title "Fix bug", `create_issue` returns
exactly the stub's issue sub-object, whose `identifier`, `title` and `url`
fields equal the stub's. -/
theorem create_issue_roundtrip :
    (LinearClient.init "k").create_issue stubCreateTransport "T1" "Fix bug"
        "" 0 none none none = Except.ok stubIssue
    ∧ stubIssue.getField "identifier" = some (JSON.str "T1-1")
    ∧ stubIssue.getField "title" = some (JSON.str "Fix bug")
    ∧ stubIssue.getField "url"
        = some (JSON.str "https://linear.app/team/issue/T1-1") :=
  ⟨rfl, rfl, rfl, rfl⟩

/-- A transport that is never consulted by the early-exit CLI paths. -/
def anyTransport : Transport := fun _ _ =>
  { status := 200, body := JSON.obj [] }

/-- Claim C7: when `LINEAR_API_KEY` is unset or empty and at least one
command-line argument is given, `main` prints the descriptive message and
exits with status 1, without constructing a client and without any network
call. -/
theorem missing_api_key_exits_early (argv : List String)
    (env : Option String) (t : Transport) (hargs : 2 ≤ argv.length)
    (henv : envTruthy env = false) :
    (LinearSync.main argv env t).output = [envErrorLine]
    ∧ (LinearSync.main argv env t).exit = ProcExit.exited 1
    ∧ (LinearSync.main argv env t).clientConstructed = false
    ∧ (LinearSync.main argv env t).networkCalls = 0 := by
  unfold LinearSync.main
  rw [if_neg (by omega), henv]
  exact ⟨rfl, rfl, rfl, rfl⟩

/-- Witness for C7: the `teams` command with the variable unset. -/
theorem missing_api_key_exits_early_witness :
    (LinearSync.main ["linear_sync.py", "teams"] none anyTransport).output
      = [envErrorLine]
    ∧ (LinearSync.main ["linear_sync.py", "teams"] none anyTransport).exit
      = ProcExit.exited 1
    ∧ (LinearSync.main
        ["linear_sync.py", "teams"] none anyTransport).clientConstructed
      = false
    ∧ (LinearSync.main
        ["linear_sync.py", "teams"] none anyTransport).networkCalls = 0 :=
  missing_api_key_exits_early ["linear_sync.py", "teams"] none anyTransport
    (by decide) (by decide)

/-- Claim C8, counterexample: an unknown command is an "other argument
combination", yet what it prints is not a usage message — the single output
line `Unknown command: frobnicate` is none of the program's usage strings
and does not begin with `Usage:` — so the claim's general clause fails at
this concrete input (the process does still exit with status 1). -/
theorem unknown_command_not_usage :
    validInvocation ["linear_sync.py", "frobnicate"] = false
    ∧ (LinearSync.main ["linear_sync.py", "frobnicate"] (some "k")
        anyTransport).output = ["Unknown command: frobnicate"]
    ∧ (LinearSync.main ["linear_sync.py", "frobnicate"] (some "k")
        anyTransport).exit = ProcExit.exited 1
    ∧ ∀ line ∈ (LinearSync.main ["linear_sync.py", "frobnicate"] (some "k")
        anyTransport).output,
        line ∉ usageLines ∧ line ≠ projectsUsageLine
        ∧ line ≠ createUsageLine ∧ line.take 6 ≠ "Usage:" := by
  refine ⟨rfl, rfl, rfl, ?_⟩
  intro line hl
  rw [show (LinearSync.main ["linear_sync.py", "frobnicate"] (some "k")
      anyTransport).output = ["Unknown command: frobnicate"] from rfl] at hl
  simp only [List.mem_singleton] at hl
  subst hl
  exact ⟨by decide, by decide, by decide, by decide⟩

/-- Claim C8 as amended: with the credential set, invoking the `create`
subcommand with too few arguments prints its usage string and exits with
status 1 without any network call; and more generally every argument
combination that does not match a valid invocation exits with status 1,
makes no network call, and prints exactly one diagnostic — the usage block
when no command is given, the `projects` or `create` usage line when their
arguments are missing, and an `Unknown command` error line (not a usage
message) when the command is unrecognized. -/
theorem cli_bad_args_usage_exit (env : Option String) (t : Transport)
    (prog tid : String) (henv : envTruthy env = true) :
    ((LinearSync.main [prog, "create", tid] env t).output = [createUsageLine]
      ∧ (LinearSync.main [prog, "create", tid] env t).exit
          = ProcExit.exited 1
      ∧ (LinearSync.main [prog, "create", tid] env t).networkCalls = 0)
    ∧ (∀ argv, validInvocation argv = false →
        (LinearSync.main argv env t).exit = ProcExit.exited 1
        ∧ (LinearSync.main argv env t).networkCalls = 0
        ∧ (LinearSync.main argv env t).output
            = (if argv.length < 2 then usageLines
               else if argv.getD 1 "" = "projects" then [projectsUsageLine]
               else if argv.getD 1 "" = "create" then [createUsageLine]
               else ["Unknown command: " ++ argv.getD 1 ""])) := by
  constructor
  · unfold LinearSync.main
    rw [if_neg (by simp), henv]
    exact ⟨rfl, rfl, rfl⟩
  · intro argv hv
    match argv with
    | [] =>
      exact ⟨rfl, rfl, rfl⟩
    | [a] =>
      exact ⟨rfl, rfl, rfl⟩
    | a :: b :: rest =>
      by_cases hb1 : b = "teams"
      · exfalso
        subst hb1
        simp [validInvocation] at hv
      · by_cases hb2 : b = "projects"
        · subst hb2
          simp [validInvocation] at hv
          subst hv
          unfold LinearSync.main
          rw [if_neg (by simp), henv]
          exact ⟨rfl, rfl, rfl⟩
        · by_cases hb3 : b = "create"
          · subst hb3
            have hrest : rest.length < 2 := by
              simp [validInvocation] at hv
              omega
            match rest with
            | [] =>
              unfold LinearSync.main
              rw [if_neg (by simp), henv]
              exact ⟨rfl, rfl, rfl⟩
            | [x] =>
              unfold LinearSync.main
              rw [if_neg (by simp), henv]
              exact ⟨rfl, rfl, rfl⟩
            | x :: y :: more =>
              exact absurd hrest (by simp)
          · have hmain : LinearSync.main (a :: b :: rest) env t
                = { output := ["Unknown command: " ++ b]
                    exit := ProcExit.exited 1
                    clientConstructed := true
                    networkCalls := 0 } := by
              unfold LinearSync.main
              rw [if_neg (by simp), henv]
              simp only [Bool.not_true, Bool.false_eq_true, if_false,
                List.getD_cons_succ, List.getD_cons_zero]
              rw [if_neg hb1, if_neg hb2, if_neg hb3]
            rw [hmain]
            refine ⟨rfl, rfl, ?_⟩
            rw [if_neg (show ¬ (a :: b :: rest).length < 2 by simp)]
            simp only [List.getD_cons_succ, List.getD_cons_zero]
            rw [if_neg hb2, if_neg hb3]

/-- Witness for C8: `create` with one argument and the credential set. -/
theorem cli_bad_args_usage_exit_witness :
    (LinearSync.main ["linear_sync.py", "create", "T1"] (some "k")
        anyTransport).output = [createUsageLine]
    ∧ (LinearSync.main ["linear_sync.py", "create", "T1"] (some "k")
        anyTransport).exit = ProcExit.exited 1
    ∧ (LinearSync.main ["linear_sync.py", "create", "T1"] (some "k")
        anyTransport).networkCalls = 0 :=
  (cli_bad_args_usage_exit (some "k") anyTransport "linear_sync.py" "T1"
    (by decide)).1
